import Mathlib

/-!
# Stellify — verification of the star-map pipeline (`src/main.py`)

Shallow embedding of the celestial-data-to-frame pipeline of `main.py`:
location geocoding with a persistent file cache (`get_coordinates`),
timezone lookup (`get_timezone`), celestial data collection
(`collect_celestial_data`), frame rendering (`generate_star_map`) and the
parallel animation build (`generate_star_map_gif`).

External libraries and services (Nominatim geocoding, timeapi.io, the
datetime parser, the Stellarium constellation download) are modelled as
oracle parameters; network activity is recorded as an explicit event trace.
Datetimes are modelled as rational minutes; a timestamp string in the fixed
format `%Y-%m-%d %H:%M:%S` is modelled by its parse result (`some t` for a
well-formed string denoting instant `t`, `none` for a malformed string).
-/

namespace Stellify

/-- One external network call made by the pipeline:
the Stellarium constellation download in `load_data` (main.py line 39),
the Nominatim geocoding call in `get_coordinates` (line 68),
and the timeapi.io request in `get_timezone` (line 82). -/
inductive NetEvent : Type
  | constellationFetch : NetEvent
  | geocodeNet : NetEvent
  | tzNet : NetEvent
  deriving DecidableEq

/-- Exceptions raised by the pipeline: `ValueError` for an unknown location
(line 70), `RuntimeError` for a failed timezone request (line 87), the
`ValueError` raised by `datetime.strptime` on a malformed timestamp.
`validationError` is modelled from the spec (section 7 error taxonomy,
"non-positive duration/step producing zero frames"); it lets the
corresponding claim be stated, although no code path raises it. -/
inductive CErr : Type
  | locationNotFound : String → CErr
  | timezoneFailure : CErr
  | parseError : CErr
  | validationError : CErr
  deriving DecidableEq

/-- Decidable equality of fallible results, so that concrete runs of the
pipeline can be evaluated inside proofs. -/
instance {ε α : Type} [DecidableEq ε] [DecidableEq α] : DecidableEq (Except ε α) :=
  fun x y =>
    match x, y with
    | Except.ok a, Except.ok b =>
      if h : a = b then isTrue (by rw [h])
      else isFalse (fun hx => h (Except.ok.inj hx))
    | Except.ok _, Except.error _ => isFalse (fun hx => Except.noConfusion hx)
    | Except.error _, Except.ok _ => isFalse (fun hx => Except.noConfusion hx)
    | Except.error e, Except.error d =>
      if h : e = d then isTrue (by rw [h])
      else isFalse (fun hx => h (Except.error.inj hx))

/-- Latitude/longitude pair (floats in the source, modelled as rationals). -/
abbrev Coords : Type := ℚ × ℚ

/-- Oracle for `Nominatim(...).geocode`: `none` when the service finds no
match for the name (the `if not loc` branch, line 69). -/
abbrev Geocoder : Type := String → Option Coords

/-- Oracle for the timeapi.io timezone request: `none` models a request
failure or malformed response (the `except` branch, lines 86-87). -/
abbrev TzService : Type := ℚ → ℚ → Option String

/-- Oracle for the zone's UTC offset in minutes, as applied by
`local.localize(dt).astimezone(utc)` (line 99); daylight-saving logic
lives inside the oracle. -/
abbrev UtcShift : Type := String → ℚ

/-- A timestamp string in the fixed format `%Y-%m-%d %H:%M:%S`, modelled by
its parse result: `some t` for a well-formed string denoting the instant
`t` (rational minutes), `none` for a malformed string. -/
abbrev TimeStr : Type := Option ℚ

/-- `datetime.strptime(s, %Y-%m-%d %H:%M:%S)`: succeeds exactly on
well-formed strings. -/
def strptime (s : TimeStr) : Option ℚ := s

/-- `t.strftime(%Y-%m-%d %H:%M:%S)`: always yields a well-formed string
denoting `t`. -/
def strftime (t : ℚ) : TimeStr := some t

/-- The on-disk location cache file `location_cache.json`: absent, present
but unparsable, or a parsed JSON object (association list, first binding
wins as in a dict). -/
inductive CacheFile : Type
  | missing : CacheFile
  | corrupt : CacheFile
  | valid : List (String × Coords) → CacheFile
  deriving DecidableEq

/-- Cache loading, main.py lines 54-60: start from `{}`; if the file exists
try to parse it, and on `json.JSONDecodeError` keep `{}` (corrupt cache is
silently discarded). -/
def readCache : CacheFile → List (String × Coords)
  | CacheFile.missing => []
  | CacheFile.corrupt => []
  | CacheFile.valid entries => entries

/-- Dict assignment `cache[location] = coords` (line 74). -/
def cacheInsert (cache : List (String × Coords)) (k : String) (v : Coords) :
    List (String × Coords) :=
  (k, v) :: cache.filter (fun p => p.1 ≠ k)

/-- `get_coordinates` (main.py lines 53-76): load the cache file (corrupt
contents are dropped); on a cache hit return the cached pair with no
network access and no write; on a miss call the geocoder (one network
event), raise `ValueError` when it finds no match, otherwise store the
result and rewrite the whole cache file. Returns the network-event trace
together with either the error or the coordinates and the cache file left
on disk. -/
def get_coordinates (g : Geocoder) (file : CacheFile) (location : String) :
    List NetEvent × Except CErr (Coords × CacheFile) :=
  match (readCache file).lookup location with
  | some c => ([], Except.ok (c, file))
  | none =>
    match g location with
    | none => ([NetEvent.geocodeNet], Except.error (CErr.locationNotFound location))
    | some coords =>
      ([NetEvent.geocodeNet],
        Except.ok (coords, CacheFile.valid (cacheInsert (readCache file) location coords)))

/-- `get_timezone` (main.py lines 78-87): one network request; a failed
request or missing field raises `RuntimeError`. -/
def get_timezone (tzSvc : TzService) (lat lon : ℚ) :
    List NetEvent × Except CErr String :=
  match tzSvc lat lon with
  | none => ([NetEvent.tzNet], Except.error CErr.timezoneFailure)
  | some zone => ([NetEvent.tzNet], Except.ok zone)

/-- One row of the hipparcos star dataframe that the pipeline reads: its
index entry (the HIP identifier) and its `magnitude` column. The derived
per-frame `x`/`y` columns (lines 112-115) are numeric outputs of the
skyfield projection library and are not modelled; no claim refers to the
projected coordinates themselves. -/
structure StarRec : Type where
  hip : ℕ
  magnitude : ℚ
  deriving DecidableEq

/-- The loaded star catalog (the hipparcos dataframe). -/
abbrev StarCatalog : Type := List StarRec

/-- Edge extraction from the Stellarium constellation JSON
(main.py lines 44-49): for every polyline, each pair of consecutive
identifiers becomes one edge. -/
def extract_edges (clines : List (List ℕ)) : List (ℕ × ℕ) :=
  (clines.map (fun line => line.zip line.tail)).flatten

/-- `load_data` (main.py lines 26-51): the ephemeris/catalog come from
local storage (modelled as the `cat` parameter); the constellation JSON is
downloaded unconditionally on every call (`requests.get`, line 39), which
is one network event; edges are the consecutive pairs of each polyline. -/
def load_data (cat : StarCatalog) (clines : List (List ℕ)) :
    List NetEvent × (StarCatalog × List (ℕ × ℕ)) :=
  ([NetEvent.constellationFetch], (cat, extract_edges clines))

/-- The constellation-edge filter (main.py line 118): keep an edge exactly
when both endpoint identifiers are in the catalog index. -/
def valid_edges (hips : List ℕ) (edges : List (ℕ × ℕ)) : List (ℕ × ℕ) :=
  edges.filter (fun e => decide (e.1 ∈ hips) && decide (e.2 ∈ hips))

/-- What `collect_celestial_data` returns (main.py line 122): the star
dataframe, the two endpoint lists of the valid constellation edges, plus
(for the embedding) the UTC instant it computed and the cache file left on
disk by `get_coordinates`. -/
structure CollectResult : Type where
  stars : StarCatalog
  edges_star1 : List ℕ
  edges_star2 : List ℕ
  utc_dt : ℚ
  cache_after : CacheFile
  deriving DecidableEq

/-- `collect_celestial_data` (main.py lines 89-122), in source order:
`load_data()` (line 90, unconditional constellation download), then
`get_coordinates` (line 93), then `get_timezone` (line 96), and only then
`datetime.strptime(when, ...)` (line 98). An exception at any step aborts
the call; the trace records the network events made up to that point.
The skyfield projection (lines 102-115) computes the derived x/y columns
and is not modelled; the valid-edge endpoint lists (lines 118-120) are. -/
def collect_celestial_data (g : Geocoder) (tzSvc : TzService) (shift : UtcShift)
    (file : CacheFile) (cat : StarCatalog) (clines : List (List ℕ))
    (location : String) (when : TimeStr) :
    List NetEvent × Except CErr CollectResult :=
  match load_data cat clines with
  | (ldTr, (stars, edges)) =>
    match get_coordinates g file location with
    | (geoTr, Except.error e) => (ldTr ++ geoTr, Except.error e)
    | (geoTr, Except.ok (coords, newFile)) =>
      match get_timezone tzSvc coords.1 coords.2 with
      | (tzTr, Except.error e) => (ldTr ++ geoTr ++ tzTr, Except.error e)
      | (tzTr, Except.ok zone) =>
        match strptime when with
        | none => (ldTr ++ geoTr ++ tzTr, Except.error CErr.parseError)
        | some dt =>
          (ldTr ++ geoTr ++ tzTr,
            Except.ok
              { stars := stars
                edges_star1 := (valid_edges (stars.map StarRec.hip) edges).map Prod.fst
                edges_star2 := (valid_edges (stars.map StarRec.hip) edges).map Prod.snd
                utc_dt := dt - shift zone
                cache_after := newFile })

/-- Marker-size law (main.py line 131):
`marker_size = max_star_size * 10 ** (magnitude / -2.5)`, over the reals. -/
noncomputable def marker_size (max_star_size : ℚ) (magnitude : ℚ) : ℝ :=
  (max_star_size : ℝ) * (10 : ℝ) ^ ((magnitude : ℝ) / (-2.5))

/-- The matplotlib figure assembled by `generate_star_map`
(main.py lines 133-159): the scatter-plotted stars, their marker sizes
(positionally aligned with `drawn`), the constellation line segments, the
figure side length, and the title data. -/
structure Figure : Type where
  drawn : StarCatalog
  sizes : List ℝ
  lineEdges : List (ℕ × ℕ)
  chart_size : ℚ
  title : String × TimeStr

/-- The figure-building half of `generate_star_map`
(main.py lines 127-159): `limiting_magnitude = 10` is a local constant;
`bright_stars = stars.magnitude <= limiting_magnitude` selects the drawn
stars (lines 128-129, 137-140); marker sizes come from line 131; the
constellation segments pair up the two endpoint lists (lines 141-145);
the title shows location and time (lines 153-159). -/
noncomputable def build_figure (cr : CollectResult) (location : String)
    (when : TimeStr) (chart_size max_star_size : ℚ) : Figure :=
  { drawn := cr.stars.filter (fun s => decide (s.magnitude ≤ (10 : ℚ)))
    sizes := (cr.stars.filter (fun s => decide (s.magnitude ≤ (10 : ℚ)))).map
      (fun s => marker_size max_star_size s.magnitude)
    lineEdges := cr.edges_star1.zip cr.edges_star2
    chart_size := chart_size
    title := (location, when) }

/-- `generate_star_map` (main.py lines 124-161): collect the celestial
data, then build the figure; any exception from the collection step
propagates, and the network trace is the collection trace. -/
noncomputable def generate_star_map (g : Geocoder) (tzSvc : TzService)
    (shift : UtcShift) (file : CacheFile) (cat : StarCatalog)
    (clines : List (List ℕ)) (location : String) (when : TimeStr)
    (chart_size max_star_size : ℚ) : List NetEvent × Except CErr Figure :=
  ((collect_celestial_data g tzSvc shift file cat clines location when).1,
    (collect_celestial_data g tzSvc shift file cat clines location when).2.map
      (fun cr => build_figure cr location when chart_size max_star_size))

/-- `_generate_frame` (main.py lines 176-185): one worker unit; unpacks the
positional argument tuple and runs the full `generate_star_map` pipeline,
returning the rendered image (modelled by the figure). `file` is the state
of the shared on-disk cache file as observed by this worker process. -/
noncomputable def _generate_frame (g : Geocoder) (tzSvc : TzService)
    (shift : UtcShift) (file : CacheFile) (cat : StarCatalog)
    (clines : List (List ℕ)) (args : String × TimeStr × ℚ × ℚ) :
    List NetEvent × Except CErr Figure :=
  generate_star_map g tzSvc shift file cat clines args.1 args.2.1 args.2.2.1 args.2.2.2

/-- Python `int(...)` applied to a number: truncation toward zero. -/
def pyInt (q : ℚ) : ℤ :=
  if 0 ≤ q then ⌊q⌋ else ⌈q⌉

/-- `total_frames = int((hours * 60) / step_minutes)` (main.py line 189). -/
def totalFrames (hours step_minutes : ℚ) : ℤ :=
  pyInt (hours * 60 / step_minutes)

/-- The frame instants (main.py line 190):
`start_dt + timedelta(minutes=i * step_minutes)` for
`i in range(total_frames)`; `range` yields nothing when the count is zero
or negative. -/
def gif_times (start_dt hours step_minutes : ℚ) : List ℚ :=
  (List.range (totalFrames hours step_minutes).toNat).map
    (fun i : ℕ => start_dt + (i : ℚ) * step_minutes)

/-- The positional argument tuple handed to worker `i`
(main.py lines 193-196). -/
def arg_at (location : String) (start_dt step_minutes chart_size max_star_size : ℚ)
    (i : ℕ) : String × TimeStr × ℚ × ℚ :=
  (location, strftime (start_dt + (i : ℚ) * step_minutes), chart_size, max_star_size)

/-- `args_list` (main.py lines 193-196), one tuple per frame instant. -/
def args_list (location : String) (start_dt hours step_minutes chart_size max_star_size : ℚ) :
    List (String × TimeStr × ℚ × ℚ) :=
  (gif_times start_dt hours step_minutes).map
    (fun t => (location, strftime t, chart_size, max_star_size))

/-- The worker pool, completing units of work in an arbitrary injected
order: `completion` lists worker indices in the order they finish, and each
finished unit carries its own index alongside its result. Indices outside
`[0, n)` correspond to no submitted unit and produce nothing. -/
def run_workers {α : Type} (f : ℕ → α) (n : ℕ) (completion : List ℕ) :
    List (ℕ × α) :=
  completion.filterMap (fun i => if i < n then some (i, f i) else none)

/-- The contract of `ProcessPoolExecutor.map` used at main.py line 201: the
collected result list is ordered by the original submission index,
regardless of the order in which units completed. -/
def executor_map_results {α : Type} (f : ℕ → α) (n : ℕ) (completion : List ℕ) :
    List α :=
  (List.range n).filterMap (fun i => (run_workers f n completion).lookup i)

/-- One animation build of `generate_star_map_gif`: the network-resolution
trace of the code run before the pool fan-out (lines 188-200), the network
trace of each per-frame worker unit in frame order, and the frame results
as assembled for `imageio.mimsave` (lines 201-207). -/
structure GifBuild : Type where
  prefanout_trace : List NetEvent
  worker_traces : List (List NetEvent)
  frames : List (List NetEvent × Except CErr Figure)

/-- `generate_star_map_gif` (main.py lines 187-207): parse the start
timestamp (line 188, `ValueError` on a malformed string), compute
`total_frames` and the per-frame argument tuples (lines 189-196) — none of
which touches the network or the location cache — then fan the frame work
out over the process pool and collect the results in submission order
(lines 199-201). There is no validation of `total_frames`; a non-positive
value simply yields an empty frame list. `workerFile i` is the state of
the shared cache file observed by worker `i`; `completion` is the order in
which the worker units happen to finish. -/
noncomputable def generate_star_map_gif (g : Geocoder) (tzSvc : TzService)
    (shift : UtcShift) (workerFile : ℕ → CacheFile) (cat : StarCatalog)
    (clines : List (List ℕ)) (location : String) (when : TimeStr)
    (hours step_minutes chart_size max_star_size : ℚ) (completion : List ℕ) :
    Except CErr GifBuild :=
  match strptime when with
  | none => Except.error CErr.parseError
  | some start_dt =>
    Except.ok
      { prefanout_trace := []
        worker_traces :=
          (List.range (totalFrames hours step_minutes).toNat).map
            (fun i => (_generate_frame g tzSvc shift (workerFile i) cat clines
              (arg_at location start_dt step_minutes chart_size max_star_size i)).1)
        frames :=
          executor_map_results
            (fun i => _generate_frame g tzSvc shift (workerFile i) cat clines
              (arg_at location start_dt step_minutes chart_size max_star_size i))
            (totalFrames hours step_minutes).toNat completion }

/-! ### Concrete fixtures for witnesses and counterexamples -/

/-- A concrete location name. -/
def loc₀ : String := "Sydney"

/-- A geocoder that resolves every name to fixed coordinates. -/
def g₀ : Geocoder := fun _ => some (12, 34)

/-- A concrete timezone identifier. -/
def zone₀ : String := "Australia Sydney"

/-- A timezone service that always answers. -/
def tz₀ : TzService := fun _ _ => some zone₀

/-- A zero UTC offset. -/
def shift₀ : UtcShift := fun _ => 0

/-- Every worker observes a cold (absent) cache file. -/
def wf₀ : ℕ → CacheFile := fun _ => CacheFile.missing

/-- A two-star catalog: HIP 1 at magnitude 2, HIP 2 at magnitude 3. -/
def cat₀ : StarCatalog := [⟨1, 2⟩, ⟨2, 3⟩]

/-- One constellation polyline whose last identifier (99) is not in the
catalog. -/
def lines₀ : List (List ℕ) := [[1, 2, 99]]

/-- `True` exactly on a successful result. -/
def okB {α : Type} : Except CErr α → Bool
  | Except.ok _ => true
  | Except.error _ => false

/-- The build record of a successful animation build (the empty build for a
failed one). -/
def theBuild (r : Except CErr GifBuild) : GifBuild :=
  match r with
  | Except.ok b => b
  | Except.error _ => { prefanout_trace := [], worker_traces := [], frames := [] }

/-- The property claim C1 asserts of one animation build, stated from the
spec's words: the geocoding resolution and the timezone lookup each happen
exactly once, in the phase before fan-out, and inside no per-frame worker
unit. -/
def resolutionOncePreFanout (b : GifBuild) : Prop :=
  b.prefanout_trace.count NetEvent.geocodeNet = 1 ∧
  b.prefanout_trace.count NetEvent.tzNet = 1 ∧
  ∀ w ∈ b.worker_traces, NetEvent.geocodeNet ∉ w ∧ NetEvent.tzNet ∉ w

/-- A concrete two-frame animation build: start instant 0, one hour in
30-minute steps, workers completing in submission order. -/
noncomputable def gif_c1 : Except CErr GifBuild :=
  generate_star_map_gif g₀ tz₀ shift₀ wf₀ cat₀ lines₀ loc₀ (strftime 0) 1 30 12 100 [0, 1]

/-- A concrete zero-frame animation build: one hour in 90-minute steps
(`int(60 / 90) = 0` frames). -/
noncomputable def gif_c2 : Except CErr GifBuild :=
  generate_star_map_gif g₀ tz₀ shift₀ wf₀ cat₀ lines₀ loc₀ (strftime 0) 1 90 12 100 []

/-- `args_list` is `arg_at` indexed over the frame indices. -/
theorem args_list_eq_arg_at (location : String)
    (start_dt hours step_minutes chart_size max_star_size : ℚ) :
    args_list location start_dt hours step_minutes chart_size max_star_size =
      (List.range (totalFrames hours step_minutes).toNat).map
        (arg_at location start_dt step_minutes chart_size max_star_size) := by
  simp only [args_list, gif_times, List.map_map]
  rfl

/-- Zipping the two endpoint-projection lists of a pair list recovers the
pair list. -/
theorem zip_map_fst_snd {α β : Type} :
    ∀ l : List (α × β), (l.map Prod.fst).zip (l.map Prod.snd) = l := by
  intro l
  induction l with
  | nil => rfl
  | cons p t ih => simp [ih]

/-- Looking a submitted index up in the pool results finds that unit's own
result, whatever the completion order. -/
theorem lookup_run_workers {α : Type} (f : ℕ → α) (n : ℕ)
    (completion : List ℕ) :
    ∀ i : ℕ, i < n → i ∈ completion →
      (run_workers f n completion).lookup i = some (f i) := by
  induction completion with
  | nil => intro i _ hmem; cases hmem
  | cons j t ih =>
    intro i hi hmem
    by_cases hj : j < n
    · by_cases hij : i = j
      · subst hij
        simp [run_workers, List.filterMap_cons, if_pos hj, List.lookup]
      · have hbeq : (i == j) = false := beq_eq_false_iff_ne.mpr hij
        have hmt : i ∈ t := by
          rcases List.mem_cons.mp hmem with h | h
          · exact absurd h hij
          · exact h
        simpa [run_workers, List.filterMap_cons, if_pos hj, List.lookup, hbeq]
          using ih i hi hmt
    · have hij : i ≠ j := fun h => hj (h ▸ hi)
      have hmt : i ∈ t := by
        rcases List.mem_cons.mp hmem with h | h
        · exact absurd h hij
        · exact h
      simpa [run_workers, List.filterMap_cons, if_neg hj]
        using ih i hi hmt

/-- A `filterMap` that hits `some` everywhere is a `map`. -/
theorem filterMap_eq_map_of {α β : Type} (g : α → Option β) (f : α → β) :
    ∀ l : List α, (∀ a ∈ l, g a = some (f a)) → l.filterMap g = l.map f := by
  intro l
  induction l with
  | nil => intro _; rfl
  | cons a t ih =>
    intro h
    have ha := h a (List.mem_cons_self a t)
    have ht := ih (fun b hb => h b (List.mem_cons_of_mem a hb))
    simp [List.filterMap_cons, ha, ht]

/-- Any completion order that is a permutation of the submitted indices
yields the results in submission order. -/
theorem executor_map_ordered {α : Type} (f : ℕ → α) (n : ℕ)
    (completion : List ℕ) (hperm : completion.Perm (List.range n)) :
    executor_map_results f n completion = (List.range n).map f := by
  unfold executor_map_results
  apply filterMap_eq_map_of
  intro i hi
  exact lookup_run_workers f n completion i (List.mem_range.mp hi)
    (hperm.mem_iff.mpr hi)

/-- Claim C5: geocoding is idempotent. When a resolve succeeds, resolving
the same name again on the cache file it left behind makes no further
network access and returns the same coordinates; the two calls together
issue at most one geocoding call; and a call whose key is already in the
cache makes no network access at all. -/
theorem geocode_idempotent (g : Geocoder) (file : CacheFile) (location : String)
    (t1 : List NetEvent) (c : Coords) (f1 : CacheFile)
    (h : get_coordinates g file location = (t1, Except.ok (c, f1))) :
    get_coordinates g f1 location = ([], Except.ok (c, f1)) ∧
      t1.count NetEvent.geocodeNet ≤ 1 ∧
      (((readCache file).lookup location).isSome = true → t1 = []) := by
  unfold get_coordinates at h
  cases hL : (readCache file).lookup location with
  | some c' =>
    simp only [hL] at h
    obtain ⟨ht, hc, hf⟩ : [] = t1 ∧ c' = c ∧ file = f1 := by
      constructor
      · exact congrArg Prod.fst h
      · have h2 := congrArg Prod.snd h
        have h3 := Except.ok.inj h2
        exact ⟨congrArg Prod.fst h3, congrArg Prod.snd h3⟩
    subst hc
    subst ht
    refine ⟨?_, by decide, fun _ => rfl⟩
    rw [← hf]
    unfold get_coordinates
    simp only [hL]
  | none =>
    simp only [hL] at h
    cases hg : g location with
    | none => rw [hg] at h; simp at h
    | some coords =>
      rw [hg] at h
      simp only [Prod.mk.injEq, Except.ok.injEq] at h
      obtain ⟨ht, hc, hf⟩ := h
      subst hc
      subst ht
      subst hf
      refine ⟨?_, by decide, ?_⟩
      · unfold get_coordinates
        simp [readCache, cacheInsert, List.lookup]
      · intro habs
        simp [hL] at habs

/-- Claim C5 witness: a cold cache, a geocoder that answers; the first call
geocodes once and the second is a silent cache hit. -/
theorem geocode_idempotent_witness :
    get_coordinates g₀ CacheFile.missing loc₀ =
        ([NetEvent.geocodeNet],
          Except.ok ((12, 34), CacheFile.valid [(loc₀, (12, 34))])) ∧
      get_coordinates g₀ (CacheFile.valid [(loc₀, (12, 34))]) loc₀ =
          ([], Except.ok ((12, 34), CacheFile.valid [(loc₀, (12, 34))])) ∧
        [NetEvent.geocodeNet].count NetEvent.geocodeNet ≤ 1 := by
  have h := geocode_idempotent g₀ CacheFile.missing loc₀ [NetEvent.geocodeNet]
    (12, 34) (CacheFile.valid [(loc₀, (12, 34))]) rfl
  exact ⟨rfl, h.1, h.2.1⟩

/-- Claim C6: on a corrupt cache file, a resolve is not broken by the
corruption — it behaves exactly as on a missing cache file, succeeds when
the geocoder finds a match, and rewrites the file as a valid cache whose
single entry is the requested location. -/
theorem cache_corruption_recovery (g : Geocoder) (location : String) (c : Coords)
    (h : g location = some c) :
    get_coordinates g CacheFile.corrupt location =
        ([NetEvent.geocodeNet],
          Except.ok (c, CacheFile.valid [(location, c)])) ∧
      (readCache (CacheFile.valid [(location, c)])).lookup location = some c ∧
      get_coordinates g CacheFile.corrupt location =
        get_coordinates g CacheFile.missing location := by
  refine ⟨?_, ?_, rfl⟩
  · unfold get_coordinates
    simp [readCache, h, cacheInsert]
  · simp [readCache, List.lookup]

/-- Claim C6 witness: the concrete geocoder recovers from a corrupt cache
file and leaves a valid one-entry cache behind. -/
theorem cache_corruption_recovery_witness :
    g₀ loc₀ = some (12, 34) ∧
      get_coordinates g₀ CacheFile.corrupt loc₀ =
        ([NetEvent.geocodeNet],
          Except.ok ((12, 34), CacheFile.valid [(loc₀, (12, 34))])) :=
  ⟨rfl, (cache_corruption_recovery g₀ loc₀ (12, 34) rfl).1⟩

/-- Claim C9: a constellation edge is kept exactly when both endpoint
identifiers exist in the catalog index; an edge with a missing endpoint is
dropped silently (it is absent from the returned endpoint lists, and edge
validity never makes the collection fail — success is independent of the
constellation data). -/
theorem edge_filtering (g : Geocoder) (tzSvc : TzService) (shift : UtcShift)
    (file : CacheFile) (cat : StarCatalog) (clines : List (List ℕ))
    (location : String) (when : TimeStr) (tr : List NetEvent)
    (cr : CollectResult)
    (h : collect_celestial_data g tzSvc shift file cat clines location when =
      (tr, Except.ok cr)) :
    cr.edges_star1.zip cr.edges_star2 =
        valid_edges (cat.map StarRec.hip) (extract_edges clines) ∧
      (∀ e : ℕ × ℕ, e ∈ cr.edges_star1.zip cr.edges_star2 ↔
        e ∈ extract_edges clines ∧ e.1 ∈ cat.map StarRec.hip ∧
          e.2 ∈ cat.map StarRec.hip) ∧
      (∀ other : List (List ℕ),
        okB (collect_celestial_data g tzSvc shift file cat other location when).2 =
          true) := by
  unfold collect_celestial_data load_data at h
  rcases hg : get_coordinates g file location with ⟨gtr, gr⟩
  rw [hg] at h
  cases gr with
  | error e => simp at h
  | ok p =>
    rcases p with ⟨coords, newFile⟩
    dsimp only at h
    rcases ht : get_timezone tzSvc coords.1 coords.2 with ⟨ttr, trr⟩
    rw [ht] at h
    cases trr with
    | error e => simp at h
    | ok zone =>
      dsimp only at h
      cases hw : strptime when with
      | none => rw [hw] at h; simp at h
      | some dt =>
        rw [hw] at h
        dsimp only at h
        simp only [Prod.mk.injEq, Except.ok.injEq] at h
        obtain ⟨-, hcr⟩ := h
        subst hcr
        refine ⟨zip_map_fst_snd _, ?_, ?_⟩
        · intro e
          rw [zip_map_fst_snd]
          simp [valid_edges, List.mem_filter, and_assoc]
        · intro other
          unfold collect_celestial_data load_data
          rw [hg]
          dsimp only
          rw [ht]
          dsimp only
          rw [hw]
          rfl

/-- Claim C9 witness: with the two-star catalog and the polyline
`[1, 2, 99]`, the edge `(1, 2)` is kept and the edge `(2, 99)` (endpoint 99
missing) is dropped without an error. -/
theorem edge_filtering_witness :
    collect_celestial_data g₀ tz₀ shift₀ CacheFile.missing cat₀ lines₀ loc₀
        (strftime 7) =
      ([NetEvent.constellationFetch, NetEvent.geocodeNet, NetEvent.tzNet],
        Except.ok
          { stars := cat₀
            edges_star1 := [1]
            edges_star2 := [2]
            utc_dt := 7
            cache_after := CacheFile.valid [(loc₀, (12, 34))] }) ∧
      ([1].zip [2] =
          valid_edges (cat₀.map StarRec.hip) (extract_edges lines₀) ∧
        (∀ e : ℕ × ℕ, e ∈ ([1].zip [2] : List (ℕ × ℕ)) ↔
          e ∈ extract_edges lines₀ ∧ e.1 ∈ cat₀.map StarRec.hip ∧
            e.2 ∈ cat₀.map StarRec.hip) ∧
        (∀ other : List (List ℕ),
          okB (collect_celestial_data g₀ tz₀ shift₀ CacheFile.missing cat₀ other
            loc₀ (strftime 7)).2 = true)) := by
  have h : collect_celestial_data g₀ tz₀ shift₀ CacheFile.missing cat₀ lines₀ loc₀
      (strftime 7) =
      ([NetEvent.constellationFetch, NetEvent.geocodeNet, NetEvent.tzNet],
        Except.ok
          { stars := cat₀
            edges_star1 := [1]
            edges_star2 := [2]
            utc_dt := 7
            cache_after := CacheFile.valid [(loc₀, (12, 34))] }) := by
    simp [collect_celestial_data, load_data, get_coordinates, get_timezone,
      readCache, cacheInsert, strptime, strftime, g₀, tz₀, shift₀, loc₀, cat₀,
      lines₀, valid_edges, extract_edges, List.lookup]
  exact ⟨h,
    edge_filtering g₀ tz₀ shift₀ CacheFile.missing cat₀ lines₀ loc₀ (strftime 7)
      [NetEvent.constellationFetch, NetEvent.geocodeNet, NetEvent.tzNet]
      { stars := cat₀
        edges_star1 := [1]
        edges_star2 := [2]
        utc_dt := 7
        cache_after := CacheFile.valid [(loc₀, (12, 34))] } h⟩

/-- Claim C10: the set of stars the renderer draws is exactly the stars of
magnitude at most 10; the limiting magnitude is the fixed constant 10
inside `generate_star_map`, so no caller-supplied chart size or marker
size can change which stars are included. -/
theorem limiting_magnitude_fixed (g : Geocoder) (tzSvc : TzService)
    (shift : UtcShift) (file : CacheFile) (cat : StarCatalog)
    (clines : List (List ℕ)) (location : String) (when : TimeStr)
    (cs ms cs' ms' : ℚ) :
    (generate_star_map g tzSvc shift file cat clines location when cs ms).2.map
        Figure.drawn =
      (collect_celestial_data g tzSvc shift file cat clines location when).2.map
        (fun cr => cr.stars.filter (fun s => decide (s.magnitude ≤ (10 : ℚ)))) ∧
    (∀ (cr : CollectResult) (s : StarRec),
      s ∈ (build_figure cr location when cs ms).drawn ↔
        s ∈ cr.stars ∧ s.magnitude ≤ 10) ∧
    (generate_star_map g tzSvc shift file cat clines location when cs ms).2.map
        Figure.drawn =
      (generate_star_map g tzSvc shift file cat clines location when cs' ms').2.map
        Figure.drawn := by
  refine ⟨?_, ?_, ?_⟩
  · cases hr : (collect_celestial_data g tzSvc shift file cat clines location when).2 with
    | error e => simp [generate_star_map, hr, Except.map]
    | ok cr => simp [generate_star_map, hr, build_figure, Except.map]
  · intro cr s
    simp [build_figure, List.mem_filter]
  · cases hr : (collect_celestial_data g tzSvc shift file cat clines location when).2 with
    | error e => simp [generate_star_map, hr, Except.map]
    | ok cr => simp [generate_star_map, hr, build_figure, Except.map]

/-- Claim C7: marker sizes follow the inverse-log brightness law of
line 131 — positionally, every drawn star's marker size is
`max_star_size * 10 ^ (magnitude / -2.5)`; in particular, with
`max_star_size = 100` a magnitude-0 star is drawn at size 100 and a
magnitude-5 star at size 1. -/
theorem marker_size_law :
    (∀ (cr : CollectResult) (location : String) (when : TimeStr) (cs ms : ℚ),
      (build_figure cr location when cs ms).sizes =
        (build_figure cr location when cs ms).drawn.map
          (fun s => (ms : ℝ) * (10 : ℝ) ^ ((s.magnitude : ℝ) / (-2.5)))) ∧
      marker_size 100 0 = 100 ∧ marker_size 100 5 = 1 := by
  refine ⟨fun cr location when cs ms => rfl, ?_, ?_⟩
  · have h0 : (((0 : ℚ) : ℝ)) / (-2.5) = 0 := by norm_num
    simp only [marker_size, h0, Real.rpow_zero]
    norm_num
  · have h5 : (((5 : ℚ) : ℝ)) / (-2.5) = ((-2 : ℤ) : ℝ) := by norm_num
    simp only [marker_size, h5, Real.rpow_intCast]
    norm_num

/-- Claim C4: with positive duration and step, the animation has exactly
`floor(hours * 60 / step_minutes)` frames, the frame instants are
`start + i * step_minutes` in order, and one hour in 30-minute steps gives
exactly the two instants `start` and `start + 30`. -/
theorem frame_schedule (g : Geocoder) (tzSvc : TzService) (shift : UtcShift)
    (workerFile : ℕ → CacheFile) (cat : StarCatalog) (clines : List (List ℕ))
    (location : String) (when : TimeStr)
    (start_dt hours step_minutes cs ms : ℚ) (completion : List ℕ)
    (hwhen : strptime when = some start_dt)
    (hh : 0 < hours) (hs : 0 < step_minutes)
    (hperm : completion.Perm (List.range (totalFrames hours step_minutes).toNat)) :
    ((gif_times start_dt hours step_minutes).length : ℤ) =
        ⌊hours * 60 / step_minutes⌋ ∧
      (∀ (i : ℕ) (hi : i < (gif_times start_dt hours step_minutes).length),
        (gif_times start_dt hours step_minutes).get ⟨i, hi⟩ =
          start_dt + (i : ℚ) * step_minutes) ∧
      (generate_star_map_gif g tzSvc shift workerFile cat clines location when
            hours step_minutes cs ms completion).map
          (fun b => b.frames.length) =
        Except.ok (gif_times start_dt hours step_minutes).length ∧
      gif_times start_dt 1 30 = [start_dt, start_dt + 30] := by
  have hq : 0 < hours * 60 / step_minutes :=
    div_pos (mul_pos hh (by norm_num)) hs
  have htf : totalFrames hours step_minutes = ⌊hours * 60 / step_minutes⌋ := by
    unfold totalFrames pyInt
    rw [if_pos hq.le]
  refine ⟨?_, ?_, ?_, ?_⟩
  · simp only [gif_times, List.length_map, List.length_range]
    rw [htf, Int.toNat_of_nonneg (Int.floor_nonneg.mpr hq.le)]
  · intro i hi
    simp [gif_times]
  · simp only [generate_star_map_gif, hwhen, Except.map]
    rw [executor_map_ordered _ _ _ hperm]
    simp [gif_times]
  · have hn : (totalFrames 1 30).toNat = 2 := by
      norm_num [totalFrames, pyInt]
      rfl
    simp [gif_times, hn, List.range_succ]

/-- Claim C4 witness: the concrete one-hour, 30-minute-step build at start
instant 0 has two frames, at instants 0 and 30. -/
theorem frame_schedule_witness :
    strptime (strftime 0) = some 0 ∧ (0 : ℚ) < 1 ∧ (0 : ℚ) < 30 ∧
      ([0, 1] : List ℕ).Perm (List.range (totalFrames 1 30).toNat) ∧
      gif_times 0 1 30 = [0, 30] ∧
      (generate_star_map_gif g₀ tz₀ shift₀ wf₀ cat₀ lines₀ loc₀ (strftime 0)
            1 30 12 100 [0, 1]).map (fun b => b.frames.length) =
        Except.ok (gif_times 0 1 30).length := by
  have hn : (totalFrames 1 30).toNat = 2 := by
    norm_num [totalFrames, pyInt]
    rfl
  have hperm : ([0, 1] : List ℕ).Perm (List.range (totalFrames 1 30).toNat) := by
    rw [hn]
    decide
  have h := frame_schedule g₀ tz₀ shift₀ wf₀ cat₀ lines₀ loc₀ (strftime 0)
    0 1 30 12 100 [0, 1] rfl (by norm_num) (by norm_num) hperm
  refine ⟨rfl, by norm_num, by norm_num, hperm, ?_, h.2.2.1⟩
  have h4 := h.2.2.2
  simpa using h4

/-- Claim C8: whatever order the pool completes the frame tasks in (any
permutation of the submitted indices), the assembled frame list is in the
original chronological index order — frame `i` of the output is the frame
computed for instant `start + i * step`. -/
theorem frames_chronological (g : Geocoder) (tzSvc : TzService)
    (shift : UtcShift) (workerFile : ℕ → CacheFile) (cat : StarCatalog)
    (clines : List (List ℕ)) (location : String) (when : TimeStr)
    (start_dt hours step_minutes cs ms : ℚ) (completion : List ℕ)
    (hwhen : strptime when = some start_dt)
    (_hs : 0 < step_minutes)
    (hperm : completion.Perm (List.range (totalFrames hours step_minutes).toNat)) :
    (generate_star_map_gif g tzSvc shift workerFile cat clines location when
          hours step_minutes cs ms completion).map GifBuild.frames =
      Except.ok
        ((List.range (totalFrames hours step_minutes).toNat).map
          (fun i => _generate_frame g tzSvc shift (workerFile i) cat clines
            (arg_at location start_dt step_minutes cs ms i))) := by
  simp only [generate_star_map_gif, hwhen, Except.map]
  rw [executor_map_ordered _ _ _ hperm]

/-- Claim C8 witness: a two-frame build whose workers complete in reversed
order still assembles the frames in chronological index order. -/
theorem frames_chronological_witness :
    strptime (strftime 0) = some 0 ∧ (0 : ℚ) < 30 ∧
      ([1, 0] : List ℕ).Perm (List.range (totalFrames 1 30).toNat) ∧
      (generate_star_map_gif g₀ tz₀ shift₀ wf₀ cat₀ lines₀ loc₀ (strftime 0)
            1 30 12 100 [1, 0]).map GifBuild.frames =
        Except.ok
          ((List.range (totalFrames 1 30).toNat).map
            (fun i => _generate_frame g₀ tz₀ shift₀ (wf₀ i) cat₀ lines₀
              (arg_at loc₀ 0 30 12 100 i))) := by
  have hn : (totalFrames 1 30).toNat = 2 := by
    norm_num [totalFrames, pyInt]
    rfl
  have hperm : ([1, 0] : List ℕ).Perm (List.range (totalFrames 1 30).toNat) := by
    rw [hn]
    decide
  exact ⟨rfl, by norm_num, hperm,
    frames_chronological g₀ tz₀ shift₀ wf₀ cat₀ lines₀ loc₀ (strftime 0)
      0 1 30 12 100 [1, 0] rfl (by norm_num) hperm⟩

/-- Claim C1 counterexample: in the concrete two-frame build, the phase of
`generate_star_map_gif` before fan-out performs no resolution at all (its
network trace is empty), so the claim — geocoding and timezone lookup each
happening exactly once, before fan-out, and never inside a worker — is
false: its once-pre-fan-out count is 0, not 1. -/
theorem resolution_once_counterexample :
    Except.map GifBuild.prefanout_trace gif_c1 = Except.ok [] ∧
      ¬ (∀ b : GifBuild, gif_c1 = Except.ok b → resolutionOncePreFanout b) := by
  constructor
  · rfl
  · intro h
    have hb := h (theBuild gif_c1) rfl
    have hpre : (theBuild gif_c1).prefanout_trace = [] := rfl
    have h1 := hb.1
    rw [hpre] at h1
    exact absurd h1 (by decide)

/-- Claim C1 as amended: no location or timezone resolution happens before
fan-out (the pre-fan-out trace of `generate_star_map_gif` is empty);
instead, every per-frame worker unit runs `collect_celestial_data` itself,
so each worker's network trace contains the timezone lookup — and is the
constellation fetch followed by the geocoding call (cache miss) or by
nothing (cache hit), followed by the timezone lookup. -/
theorem resolution_inside_workers (g : Geocoder) (tzSvc : TzService)
    (shift : UtcShift) (workerFile : ℕ → CacheFile) (cat : StarCatalog)
    (clines : List (List ℕ)) (location : String) (when : TimeStr)
    (start_dt hours step_minutes cs ms : ℚ) (completion : List ℕ) (c : Coords)
    (hwhen : strptime when = some start_dt)
    (hg : g location = some c) :
    (generate_star_map_gif g tzSvc shift workerFile cat clines location when
          hours step_minutes cs ms completion).map GifBuild.prefanout_trace =
        Except.ok [] ∧
      ∀ b : GifBuild,
        generate_star_map_gif g tzSvc shift workerFile cat clines location when
            hours step_minutes cs ms completion = Except.ok b →
          ∀ w ∈ b.worker_traces,
            NetEvent.tzNet ∈ w ∧
              (w = [NetEvent.constellationFetch, NetEvent.geocodeNet,
                  NetEvent.tzNet] ∨
                w = [NetEvent.constellationFetch, NetEvent.tzNet]) := by
  constructor
  · simp only [generate_star_map_gif, hwhen, Except.map]
  · intro b hb
    simp only [generate_star_map_gif, hwhen] at hb
    have hbrec := Except.ok.inj hb
    subst hbrec
    intro w hw
    simp only [List.mem_map, List.mem_range] at hw
    obtain ⟨i, -, hwi⟩ := hw
    subst hwi
    unfold _generate_frame generate_star_map arg_at
    unfold collect_celestial_data load_data get_coordinates get_timezone
    cases hL : (readCache (workerFile i)).lookup location with
    | some cached =>
      simp only [hL]
      cases htz : tzSvc cached.1 cached.2 with
      | none => simp [htz]
      | some z => simp [htz, strptime, strftime]
    | none =>
      simp only [hL, hg]
      cases htz : tzSvc c.1 c.2 with
      | none => simp [htz]
      | some z => simp [htz, strptime, strftime]

/-- Claim C1 amended witness: the concrete two-frame build has an empty
pre-fan-out trace and its worker units make the resolution calls. -/
theorem resolution_inside_workers_witness :
    strptime (strftime 0) = some 0 ∧ g₀ loc₀ = some (12, 34) ∧
      Except.map GifBuild.prefanout_trace gif_c1 = Except.ok [] :=
  ⟨rfl, rfl,
    (resolution_inside_workers g₀ tz₀ shift₀ wf₀ cat₀ lines₀ loc₀ (strftime 0)
      0 1 30 12 100 [0, 1] (12, 34) rfl rfl).1⟩

/-- Claim C2 counterexample: with `hours = 1, step_minutes = 90` the frame
count is 0, yet the build raises no validation error — it succeeds with an
empty frame list (and hands the empty list to the GIF writer), instead of
failing. -/
theorem zero_frames_counterexample :
    totalFrames 1 90 = 0 ∧
      Except.map GifBuild.frames gif_c2 = Except.ok [] ∧
      gif_c2 ≠ Except.error CErr.validationError := by
  have h0 : totalFrames 1 90 = 0 := by norm_num [totalFrames, pyInt]
  have hframes : Except.map GifBuild.frames gif_c2 = Except.ok [] := by
    have hn : (totalFrames 1 90).toNat = 0 := by rw [h0]; rfl
    simp [gif_c2, generate_star_map_gif, strptime, strftime, hn,
      executor_map_results, Except.map]
  refine ⟨h0, hframes, ?_⟩
  intro h
  rw [h] at hframes
  simp [Except.map] at hframes

/-- Claim C2 as amended: when `int(hours * 60 / step_minutes)` is zero or
negative (and the step is nonzero, since a zero step raises
`ZeroDivisionError` in Python and is outside the model), the build does
not fail with a validation error: it succeeds with an empty pre-fan-out
trace, no worker units, and an empty frame list, which is what the GIF
writer is then invoked on. -/
theorem zero_frames_no_validation (g : Geocoder) (tzSvc : TzService)
    (shift : UtcShift) (workerFile : ℕ → CacheFile) (cat : StarCatalog)
    (clines : List (List ℕ)) (location : String) (when : TimeStr)
    (start_dt hours step_minutes cs ms : ℚ) (completion : List ℕ)
    (hwhen : strptime when = some start_dt)
    (_hs : step_minutes ≠ 0)
    (hnp : totalFrames hours step_minutes ≤ 0) :
    generate_star_map_gif g tzSvc shift workerFile cat clines location when
        hours step_minutes cs ms completion =
      Except.ok { prefanout_trace := [], worker_traces := [], frames := [] } := by
  have hn : (totalFrames hours step_minutes).toNat = 0 :=
    Int.toNat_of_nonpos hnp
  simp [generate_star_map_gif, hwhen, hn, executor_map_results]

/-- Claim C2 amended witness: the concrete `hours = 1, step_minutes = 90`
build succeeds with the empty build record. -/
theorem zero_frames_no_validation_witness :
    strptime (strftime 0) = some 0 ∧ (90 : ℚ) ≠ 0 ∧ totalFrames 1 90 ≤ 0 ∧
      gif_c2 =
        Except.ok { prefanout_trace := [], worker_traces := [], frames := [] } :=
  ⟨rfl, by norm_num, by norm_num [totalFrames, pyInt],
    zero_frames_no_validation g₀ tz₀ shift₀ wf₀ cat₀ lines₀ loc₀ (strftime 0)
      0 1 90 12 100 [] rfl (by norm_num) (by norm_num [totalFrames, pyInt])⟩

/-- Claim C3 counterexample: a malformed timestamp handed to
`collect_celestial_data` does raise the parsing error, but only after the
constellation download, the geocoding call and the timezone lookup — the
network trace accumulated before the failure is not empty, so the parse
does not fail before any network call. -/
theorem parse_after_network_counterexample :
    collect_celestial_data g₀ tz₀ shift₀ CacheFile.missing cat₀ lines₀ loc₀
        none =
      ([NetEvent.constellationFetch, NetEvent.geocodeNet, NetEvent.tzNet],
        Except.error CErr.parseError) ∧
      (collect_celestial_data g₀ tz₀ shift₀ CacheFile.missing cat₀ lines₀ loc₀
          none).1 ≠ [] := by
  have h1 : collect_celestial_data g₀ tz₀ shift₀ CacheFile.missing cat₀ lines₀
      loc₀ none =
      ([NetEvent.constellationFetch, NetEvent.geocodeNet, NetEvent.tzNet],
        Except.error CErr.parseError) := rfl
  refine ⟨h1, ?_⟩
  intro h
  rw [h1] at h
  simp at h

/-- Claim C3 as amended: a malformed timestamp fails with a parsing error,
but the parse happens last in `collect_celestial_data` (line 98), after
`load_data`, `get_coordinates` and `get_timezone` — so when location
resolution succeeds and the timezone service answers, the constellation
fetch, the geocoding trace and the timezone request have all already been
made by the time the parse error is raised. -/
theorem parse_error_after_network (g : Geocoder) (tzSvc : TzService)
    (shift : UtcShift) (file : CacheFile) (cat : StarCatalog)
    (clines : List (List ℕ)) (location : String)
    (gtr : List NetEvent) (coords : Coords) (f1 : CacheFile)
    (hgeo : get_coordinates g file location = (gtr, Except.ok (coords, f1)))
    (htz : ∀ la lo : ℚ, (tzSvc la lo).isSome = true) :
    (collect_celestial_data g tzSvc shift file cat clines location none).2 =
        Except.error CErr.parseError ∧
      (collect_celestial_data g tzSvc shift file cat clines location none).1 =
        NetEvent.constellationFetch :: (gtr ++ [NetEvent.tzNet]) := by
  unfold collect_celestial_data load_data
  rw [hgeo]
  dsimp only
  cases hz : tzSvc coords.1 coords.2 with
  | none =>
    have := htz coords.1 coords.2
    rw [hz] at this
    simp at this
  | some z =>
    unfold get_timezone
    rw [hz]
    exact ⟨rfl, rfl⟩

/-- Claim C3 amended witness: the concrete malformed-timestamp run fails
with the parse error carrying the three network calls in its trace. -/
theorem parse_error_after_network_witness :
    get_coordinates g₀ CacheFile.missing loc₀ =
        ([NetEvent.geocodeNet],
          Except.ok ((12, 34), CacheFile.valid [(loc₀, (12, 34))])) ∧
      (∀ la lo : ℚ, (tz₀ la lo).isSome = true) ∧
      (collect_celestial_data g₀ tz₀ shift₀ CacheFile.missing cat₀ lines₀ loc₀
            none).2 = Except.error CErr.parseError ∧
      (collect_celestial_data g₀ tz₀ shift₀ CacheFile.missing cat₀ lines₀ loc₀
            none).1 =
        NetEvent.constellationFetch :: ([NetEvent.geocodeNet] ++ [NetEvent.tzNet]) := by
  have h := parse_error_after_network g₀ tz₀ shift₀ CacheFile.missing cat₀
    lines₀ loc₀ [NetEvent.geocodeNet] (12, 34)
    (CacheFile.valid [(loc₀, (12, 34))]) rfl (fun _ _ => rfl)
  exact ⟨rfl, fun _ _ => rfl, h.1, h.2⟩

end Stellify
